import Mathlib

/-!
Verification development for the posture/engagement classification and
alerting engine of the AI-INTERVIEW-COACH repository.

The JavaScript source is embedded shallowly:

* JavaScript numbers are modelled by `JsNum`: a rational (`num`), `nan`
  (IEEE NaN), and the two infinities.  Negative zero is not distinguished
  from zero; it plays no role in any statement below (the only divisors are
  guarded to be nonzero or produced by `Math.abs`).
* The `Math.atan2`-based shoulder-angle test (a transcendental function with
  no exact rational evaluation) is abstracted as an explicit boolean
  parameter `angleBelow174 dy dx`, standing for
  `|atan2(dy, dx) * 180 / PI| < 174` as in postureDetection.js.  Every
  theorem below is either independent of it or quantifies over it.
* Module-level mutable state becomes an explicit state record, and each
  event handler becomes a state-transition function returning
  `Option (state, notifications)`; `none` models a thrown TypeError.
-/

namespace InterviewCoach

/-- A JavaScript number: a finite (rational) value, NaN, or an infinity. -/
inductive JsNum where
  | num (q : ℚ)
  | nan
  | inf
  | ninf
  deriving DecidableEq

/-- JavaScript unary minus. -/
def jneg : JsNum → JsNum
  | .num q => .num (-q)
  | .nan => .nan
  | .inf => .ninf
  | .ninf => .inf

/-- JavaScript addition. -/
def jadd : JsNum → JsNum → JsNum
  | .nan, _ => .nan
  | _, .nan => .nan
  | .inf, .ninf => .nan
  | .ninf, .inf => .nan
  | .inf, _ => .inf
  | _, .inf => .inf
  | .ninf, _ => .ninf
  | _, .ninf => .ninf
  | .num a, .num b => .num (a + b)

/-- JavaScript subtraction (`a - b` behaves as `a + (-b)`). -/
def jsub (a b : JsNum) : JsNum := jadd a (jneg b)

/-- JavaScript multiplication. -/
def jmul : JsNum → JsNum → JsNum
  | .nan, _ => .nan
  | _, .nan => .nan
  | .num a, .num b => .num (a * b)
  | .inf, .num b => if b = 0 then .nan else if 0 < b then .inf else .ninf
  | .ninf, .num b => if b = 0 then .nan else if 0 < b then .ninf else .inf
  | .num a, .inf => if a = 0 then .nan else if 0 < a then .inf else .ninf
  | .num a, .ninf => if a = 0 then .nan else if 0 < a then .ninf else .inf
  | .inf, .inf => .inf
  | .inf, .ninf => .ninf
  | .ninf, .inf => .ninf
  | .ninf, .ninf => .inf

/-- JavaScript division (division of a nonzero value by zero yields an
infinity, `0 / 0` yields NaN; negative zero is identified with zero). -/
def jdiv : JsNum → JsNum → JsNum
  | .nan, _ => .nan
  | _, .nan => .nan
  | .num a, .num b =>
    if b = 0 then (if a = 0 then .nan else if 0 < a then .inf else .ninf)
    else .num (a / b)
  | .num _, .inf => .num 0
  | .num _, .ninf => .num 0
  | .inf, .num b => if 0 ≤ b then .inf else .ninf
  | .ninf, .num b => if 0 ≤ b then .ninf else .inf
  | .inf, .inf => .nan
  | .inf, .ninf => .nan
  | .ninf, .inf => .nan
  | .ninf, .ninf => .nan

/-- JavaScript `Math.abs`. -/
def jabs : JsNum → JsNum
  | .num q => .num |q|
  | .nan => .nan
  | .inf => .inf
  | .ninf => .inf

/-- JavaScript `<` (any comparison with NaN is false). -/
def jlt : JsNum → JsNum → Bool
  | .num a, .num b => decide (a < b)
  | .nan, _ => false
  | _, .nan => false
  | .ninf, .ninf => false
  | .ninf, _ => true
  | _, .ninf => false
  | .inf, _ => false
  | _, .inf => true

/-- JavaScript truthiness of a number: `0` and NaN are falsy. -/
def jsTruthy : JsNum → Bool
  | .num q => decide (q ≠ 0)
  | .nan => false
  | .inf => true
  | .ninf => true

/-- JavaScript `isNaN` on a number. -/
def jsIsNaN : JsNum → Bool
  | .nan => true
  | _ => false

/-- A named 2-D pose landmark.  The source reads the landmark name as
`k.part || k.name`; both fields are kept. The unused confidence score is
omitted. -/
structure Keypoint where
  part : Option String
  name : Option String
  x : JsNum
  y : JsNum
  deriving DecidableEq

/-- JavaScript `a || b` on the two optional name fields (an absent field and
the empty string are falsy). -/
def jsOrField : Option String → Option String → Option String
  | some s, b => if s = "" then b else some s
  | none, b => b

/-- `findKeypoint(keypoints, name)` from postureDetection.js:
`keypoints.find((k) => (k.part || k.name) === name)`. -/
def findKeypoint (keypoints : List Keypoint) (nm : String) : Option Keypoint :=
  keypoints.find? (fun k => jsOrField k.part k.name == some nm)

/-- The calibrated baseline posture: `{ ratio }`. -/
structure Baseline where
  ratio : JsNum
  deriving DecidableEq

/-- PRIORITY 1 block of `analyzePosture` (postureDetection.js lines 179-185):
the slouching check against the baseline. -/
def slouchCheck (baselinePosture : Option Baseline) (shoulderWidth : JsNum)
    (ls rs np : Keypoint) : List String :=
  match baselinePosture with
  | some bp =>
    if jlt (.num 0) shoulderWidth then
      let avgShoulderY := jdiv (jadd ls.y rs.y) (.num 2)
      let noseToShoulderGap := jsub avgShoulderY np.y
      let deviation :=
        if jsTruthy bp.ratio then
          jdiv (jsub (jdiv noseToShoulderGap shoulderWidth) bp.ratio) bp.ratio
        else .num 0
      if jlt deviation (.num (-0.25)) then ["Slouching"] else []
    else []
  | none => []

/-- PRIORITY 2 block of `analyzePosture` (lines 187-205): vertical head
tilt from eyes and ears. -/
def headTiltCheck (keypoints : List Keypoint) : List String :=
  match findKeypoint keypoints "left_eye", findKeypoint keypoints "right_eye",
      findKeypoint keypoints "left_ear", findKeypoint keypoints "right_ear" with
  | some le, some re, some lea, some rea =>
    let avgEyeY := jdiv (jadd le.y re.y) (.num 2)
    let avgEarY := jdiv (jadd lea.y rea.y) (.num 2)
    let eyeDistance := jabs (jsub le.x re.x)
    let tiltRatio := jdiv (jsub avgEarY avgEyeY) eyeDistance
    if jlt tiltRatio (.num (-0.2)) then ["Looking Down"]
    else if jlt (.num 0.35) tiltRatio then ["Looking Up"]
    else []
  | _, _, _, _ => []

/-- PRIORITY 3 block of `analyzePosture` (lines 207-212): side-to-side head
lean from the mouth corners. -/
def headLeanCheck (shoulderWidth : JsNum) (keypoints : List Keypoint)
    (ls rs : Keypoint) : List String :=
  match findKeypoint keypoints "mouth_left", findKeypoint keypoints "mouth_right" with
  | some ml, some mr =>
    let midShoulderX := jdiv (jadd ls.x rs.x) (.num 2)
    let midMouthX := jdiv (jadd ml.x mr.x) (.num 2)
    if jlt (jmul shoulderWidth (.num 0.15)) (jabs (jsub midMouthX midShoulderX))
    then ["Leaning Head"] else []
  | _, _ => []

/-- PRIORITY 4 block of `analyzePosture` (lines 214-216): tilted shoulders,
via the abstracted `Math.atan2` angle test. -/
def shoulderTiltCheck (angleBelow174 : JsNum → JsNum → Bool) (ls rs : Keypoint) : List String :=
  if angleBelow174 (jsub rs.y ls.y) (jsub rs.x ls.x) then ["Tilted Shoulders"] else []

/-- `analyzePosture(keypoints)` from postureDetection.js (lines 161-222),
with the module variable `baselinePosture` passed explicitly and the
`Math.atan2` shoulder-angle test abstracted as `angleBelow174 dy dx`
(standing for `|atan2(dy, dx) * 180 / PI| < 174`).  The four priority
blocks appear in source order; each appends its flags to the result. -/
def analyzePosture (angleBelow174 : JsNum → JsNum → Bool)
    (baselinePosture : Option Baseline) (keypoints : List Keypoint) : List String :=
  match findKeypoint keypoints "left_shoulder", findKeypoint keypoints "right_shoulder",
      findKeypoint keypoints "nose" with
  | some ls, some rs, some np =>
    let shoulderWidth := jabs (jsub rs.x ls.x)
    slouchCheck baselinePosture shoulderWidth ls rs np
      ++ headTiltCheck keypoints
      ++ headLeanCheck shoulderWidth keypoints ls rs
      ++ shoulderTiltCheck angleBelow174 ls rs
  | _, _, _ => ["Key points hidden"]

/-- `setBaseline()` from postureDetection.js (lines 47-76), with the module
variables `lastKeypoints` and `baselinePosture` passed and returned
explicitly.  Returns the boolean result, the new value of `baselinePosture`,
and the message passed to `showNotification`. -/
def setBaseline (lastKeypoints : Option (List Keypoint))
    (baselinePosture : Option Baseline) : Bool × Option Baseline × String :=
  match lastKeypoints with
  | none => (false, baselinePosture, "Still calibrating. Please wait a moment and try again.")
  | some keypoints =>
    match findKeypoint keypoints "left_shoulder", findKeypoint keypoints "right_shoulder",
        findKeypoint keypoints "nose" with
    | some ls, some rs, some np =>
      let shoulderWidth := jabs (jsub rs.x ls.x)
      if jlt shoulderWidth (.num 10) then
        (false, baselinePosture, "Cannot determine shoulder width. Please sit upright.")
      else
        let avgShoulderY := jdiv (jadd ls.y rs.y) (.num 2)
        let noseToShoulderGap := jsub avgShoulderY np.y
        (true, some ⟨jdiv noseToShoulderGap shoulderWidth⟩, "Baseline posture saved!")
    | _, _, _ =>
      (false, baselinePosture, "Could not detect shoulders clearly. Try adjusting your position.")

/-- JavaScript `Math.round` (round half toward positive infinity). -/
def jsRound (q : ℚ) : ℤ := ⌊q + 1 / 2⌋

/-- One step of the `reduce` in `calculateDistribution`:
`acc[val] = (acc[val] || 0) + 1` on a plain object, modelled as an
insertion-ordered association list with unique keys. -/
def bump (acc : List (String × Nat)) (v : String) : List (String × Nat) :=
  if acc.any (fun p => p.1 == v) then
    acc.map (fun p => if p.1 == v then (p.1, p.2 + 1) else p)
  else acc ++ [(v, 1)]

/-- `calculateDistribution(dataArray)` from interviewManager.js
(lines 236-247): group identical labels, then per label compute
`Math.round((count / dataArray.length) * 100)`. -/
def calculateDistribution (dataArray : List String) : List (String × ℤ) :=
  if dataArray.length = 0 then []
  else
    (dataArray.foldl bump []).map
      (fun p => (p.1, jsRound ((p.2 : ℚ) / (dataArray.length : ℚ) * 100)))

/-- The dominant-expression selection from emotionDetection.js (line 53):
`Object.entries(expressions).sort((a, b) => b[1] - a[1])[0]`, destructured
to its key.  JavaScript array sort is stable; it is modelled by the stable
`List.mergeSort` on the descending score order.  `none` models the
TypeError thrown when the entries list is empty (destructuring
`undefined`). -/
def dominantEmotion (expressions : List (String × ℚ)) : Option String :=
  (expressions.mergeSort (fun a b => decide (b.2 ≤ a.2))).head?.map Prod.fst

/-- `EMOTION_MAP[e] || "🤔"` from emotionDetection.js. -/
def emotionMap (e : String) : String :=
  if e = "happy" then "😊"
  else if e = "sad" then "😢"
  else if e = "neutral" then "😐"
  else if e = "surprised" then "😮"
  else if e = "angry" then "😠"
  else if e = "fearful" then "😨"
  else "🤔"

/-- `NEGATIVE_EMOTIONS = new Set(["sad", "angry", "fearful"])`. -/
def negativeEmotions : List String := ["sad", "angry", "fearful"]

/-- `s.charAt(0).toUpperCase() + s.slice(1)` (ASCII labels only). -/
def jsCapitalize (s : String) : String :=
  match s.toList with
  | [] => ""
  | c :: t => String.mk (c.toUpper :: t)

/-- The state of one sustained-condition alerting instance, as kept in the
module variables of postureDetection.js (`badPostureTimer`,
`isAlertingPosture`, `lastKeypoints`) and emotionDetection.js
(`badEmotionTimer`, `isAlertingEmotion`, `lastDetectedEmotion`): whether a
timer handle is pending, whether this episode has already alerted, and the
most recent observation. -/
structure AlertInst (α : Type) where
  timer : Bool
  alerted : Bool
  lastObs : α
  deriving DecidableEq

/-- One observation fed to a sustained-condition alerting instance,
translated from postureDetection.js lines 95 and 112-138 (and the identical
structure in emotionDetection.js lines 54 and 61-87): the latest
observation is always cached; then, only while recording, an adverse
observation arms the timer when none is pending and the episode has not
alerted, and a non-adverse observation clears the timer and the alerted
flag. -/
def alertObserve {α : Type} (bad : α → Bool) (recording : Bool) (x : α)
    (s : AlertInst α) : AlertInst α :=
  let s1 : AlertInst α := { s with lastObs := x }
  if recording then
    if bad x then
      if !s1.timer && !s1.alerted then { s1 with timer := true } else s1
    else
      { s1 with timer := false, alerted := false }
  else s1

/-- The timer callback of a sustained-condition alerting instance
(postureDetection.js lines 116-125, emotionDetection.js lines 67-74): when
the pending timer elapses, the most recent observation is re-checked; if it
is still adverse the coaching notification fires (result `true`) and the
alerted flag is set; either way the timer handle is cleared.  An elapse
with no pending timer cannot occur (the handle is cancelled) and is a
no-op. -/
def alertFire {α : Type} (bad : α → Bool) (s : AlertInst α) : AlertInst α × Bool :=
  if s.timer then
    if bad s.lastObs then ({ s with timer := false, alerted := true }, true)
    else ({ s with timer := false }, false)
  else (s, false)

/-- An event consumed by a sustained-condition alerting instance. -/
inductive AlertEv (α : Type) where
  | obs (recording : Bool) (x : α)
  | fire
  deriving DecidableEq

/-- One event step of an alerting instance; the boolean reports whether the
coaching notification fired at this step. -/
def alertStep {α : Type} (bad : α → Bool) (s : AlertInst α) :
    AlertEv α → AlertInst α × Bool
  | .obs r x => (alertObserve bad r x s, false)
  | .fire => alertFire bad s

/-- Number of coaching notifications fired along a trace of events. -/
def alertNotifyCount {α : Type} (bad : α → Bool) (s : AlertInst α) :
    List (AlertEv α) → Nat
  | [] => 0
  | e :: t =>
    (if (alertStep bad s e).2 then 1 else 0) + alertNotifyCount bad (alertStep bad s e).1 t

/-- One detected subject in a pose result (`results[i]`). -/
structure Subject where
  keypoints : Option (List Keypoint)
  deriving DecidableEq

/-- The module-level mutable state of the frontend detection code: the
globals of main.js (`recording`, loop handles), postureDetection.js
(`baselinePosture`, `lastKeypoints`, `badPostureTimer`,
`isAlertingPosture`), emotionDetection.js (`badEmotionTimer`,
`isAlertingEmotion`, `lastDetectedEmotion`) and interviewManager.js
(accumulators, question state, processing counter), together with the UI
scalars written by the handlers.  Timer and loop handles are modelled as
booleans (a handle is pending or not). -/
structure Sys where
  recording : Bool
  baselinePosture : Option Baseline
  lastKeypoints : Option (List Keypoint)
  badPostureTimer : Bool
  isAlertingPosture : Bool
  currentAnswerPostures : List String
  badEmotionTimer : Bool
  isAlertingEmotion : Bool
  lastDetectedEmotion : String
  currentAnswerEmotions : List String
  poseDetectionFrameId : Bool
  detectionInterval : Bool
  webcamActive : Bool
  canvasContext : Bool
  videoReady : Bool
  postureIcon : String
  postureLabel : String
  emotionEmoji : String
  emotionLabel : String
  questions : List String
  currentQuestionIndex : Nat
  totalQuestions : Nat
  interviewData : List String
  answersBeingProcessed : Nat
  isFetchingQuestions : Bool
  deriving DecidableEq

/-- `handlePoseResults(results)` from postureDetection.js (lines 88-140).
Returns the new state and the notifications shown, or `none` for the
TypeError raised by `results[0].keypoints[0].x` when the keypoints array is
empty. -/
def handlePoseResults (angleBelow174 : JsNum → JsNum → Bool)
    (results : Option (List Subject)) (s : Sys) : Option (Sys × List String) :=
  let calibratingUI : Sys × List String :=
    ({ s with postureIcon := "🤔", postureLabel := "Calibrating..." }, [])
  match results with
  | none => some calibratingUI
  | some rs =>
    match rs.head? with
    | none => some calibratingUI
    | some subj =>
      match subj.keypoints with
      | none => some calibratingUI
      | some kps =>
        match kps.head? with
        | none => none
        | some k0 =>
          if jsIsNaN k0.x then some calibratingUI
          else
            let s1 : Sys := { s with lastKeypoints := some kps }
            if !s1.canvasContext then some (s1, [])
            else
              let postureFlags := analyzePosture angleBelow174 s1.baselinePosture kps
              let isBadPosture := !postureFlags.isEmpty
              let s2 : Sys :=
                if isBadPosture then
                  { s1 with postureIcon := "⚠️", postureLabel := postureFlags.headD "" }
                else { s1 with postureIcon := "✅", postureLabel := "Good Posture" }
              if s2.recording then
                let s3 : Sys :=
                  if isBadPosture then
                    if !s2.badPostureTimer && !s2.isAlertingPosture then
                      { s2 with badPostureTimer := true }
                    else s2
                  else { s2 with badPostureTimer := false, isAlertingPosture := false }
                some ({ s3 with currentAnswerPostures := s3.currentAnswerPostures ++
                  [if isBadPosture then postureFlags.headD "" else "Good Posture"] }, [])
              else some (s2, [])

/-- The `setTimeout` callback armed in handlePoseResults (lines 116-125):
re-analyze the cached keypoints; if posture is still bad, show the coaching
tip and set the alerted flag; always clear the timer handle.  `none` models
`analyzePosture(null)` throwing, which cannot occur since the timer is only
armed after the cache is set. -/
def postureTimerElapse (angleBelow174 : JsNum → JsNum → Bool) (s : Sys) :
    Option (Sys × List String) :=
  if s.badPostureTimer then
    match s.lastKeypoints with
    | none => none
    | some kps =>
      let currentPostureFlags := analyzePosture angleBelow174 s.baselinePosture kps
      if !currentPostureFlags.isEmpty then
        some ({ s with isAlertingPosture := true, badPostureTimer := false },
          ["💡 Coaching Tip: Try to maintain an upright posture."])
      else some ({ s with badPostureTimer := false }, [])
  else some (s, [])

/-- `runEmotionDetection()` from emotionDetection.js (lines 29-95), with
the face-api detections passed as the list of per-face expression entry
lists.  `none` models the TypeError from destructuring `sort()[0]` of an
empty expressions object. -/
def runEmotionDetection (detections : List (List (String × ℚ))) (s : Sys) :
    Option (Sys × List String) :=
  if !s.videoReady then some (s, [])
  else if detections.length > 0 then
    match dominantEmotion (detections.headD []) with
    | none => none
    | some dom =>
      let s1 : Sys :=
        { s with
          lastDetectedEmotion := dom,
          emotionEmoji := emotionMap dom,
          emotionLabel := jsCapitalize dom }
      if s1.recording then
        let isBadEmotion := negativeEmotions.contains dom
        let s2 : Sys :=
          if isBadEmotion then
            if !s1.badEmotionTimer && !s1.isAlertingEmotion then
              { s1 with badEmotionTimer := true }
            else s1
          else { s1 with badEmotionTimer := false, isAlertingEmotion := false }
        some ({ s2 with currentAnswerEmotions := s2.currentAnswerEmotions ++ [dom] }, [])
      else some (s1, [])
  else
    some
      ({ s with
         emotionEmoji := "😐",
         emotionLabel := "No Face",
         lastDetectedEmotion := "neutral" }, [])

/-- The `setTimeout` callback armed in runEmotionDetection (lines 67-74). -/
def emotionTimerElapse (s : Sys) : Option (Sys × List String) :=
  if s.badEmotionTimer then
    if negativeEmotions.contains s.lastDetectedEmotion then
      some ({ s with isAlertingEmotion := true, badEmotionTimer := false },
        ["💡 Coaching Tip: Remember to convey confidence and positivity!"])
    else some ({ s with badEmotionTimer := false }, [])
  else some (s, [])

/-- `startRecording()` from interviewManager.js (lines 139-156): clears
both accumulators and sets the recording flag (audio plumbing omitted). -/
def startRecording (s : Sys) : Sys :=
  { s with currentAnswerEmotions := [], currentAnswerPostures := [], recording := true }

/-- `stopRecording()` from interviewManager.js (lines 163-173): bumps the
processing counter and clears the recording flag (UI plumbing omitted). -/
def stopRecording (s : Sys) : Sys :=
  { s with answersBeingProcessed := s.answersBeingProcessed + 1, recording := false }

/-- The `setBaselineBtn` click (interviewManager.js lines 370-379) as far
as the core state goes: run `setBaseline` over the cached keypoints and
store the new baseline; the message goes to `showNotification`. -/
def setBaselineStep (s : Sys) : Sys × List String :=
  let r := setBaseline s.lastKeypoints s.baselinePosture
  ({ s with baselinePosture := r.2.1 }, [r.2.2])

/-- `stopAllDetections()` from detectionManager.js (lines 41-56): cancel
the pose loop's pending animation frame, clear the emotion interval, and
stop the webcam stream.  (Note what it does not touch.) -/
def stopAllDetections (s : Sys) : Sys :=
  let s1 : Sys := if s.poseDetectionFrameId then { s with poseDetectionFrameId := false } else s
  let s2 : Sys := if s1.detectionInterval then { s1 with detectionInterval := false } else s1
  { s2 with webcamActive := false }

/-- `resetInterview()` from interviewManager.js (lines 347-365): clear the
question/answer state, the accumulators, the processing counter and the
baseline (UI text writes omitted). -/
def resetInterview (s : Sys) : Sys :=
  { s with
    questions := [],
    currentQuestionIndex := 0,
    totalQuestions := 0,
    interviewData := [],
    currentAnswerEmotions := [],
    currentAnswerPostures := [],
    answersBeingProcessed := 0,
    isFetchingQuestions := false,
    baselinePosture := none }

/-- An event of the single-threaded frontend event loop. -/
inductive Ev where
  | poseFrame (results : Option (List Subject))
  | postureTimerFire
  | emotionFrame (detections : List (List (String × ℚ)))
  | emotionTimerFire
  | startRec
  | stopRec
  | setBaselineClick
  | stopDetections
  | reset
  deriving DecidableEq

/-- One step of the event loop.  Pose frames reach `handlePoseResults` only
through `runPoseDetectionLoop` (detectionManager.js lines 19-26), which is
scheduled only while the animation-frame handle is live and skips empty
pose lists; emotion ticks run only while the interval is live. -/
def sysStep (angleBelow174 : JsNum → JsNum → Bool) (s : Sys) :
    Ev → Option (Sys × List String)
  | .poseFrame results =>
    if s.poseDetectionFrameId then
      match results with
      | some rs =>
        if rs.length > 0 then handlePoseResults angleBelow174 (some rs) s else some (s, [])
      | none => some (s, [])
    else some (s, [])
  | .postureTimerFire => postureTimerElapse angleBelow174 s
  | .emotionFrame ds =>
    if s.detectionInterval then runEmotionDetection ds s else some (s, [])
  | .emotionTimerFire => emotionTimerElapse s
  | .startRec => some (startRecording s, [])
  | .stopRec => some (stopRecording s, [])
  | .setBaselineClick => some (setBaselineStep s)
  | .stopDetections => some (stopAllDetections s, [])
  | .reset => some (resetInterview s, [])

/-- Run a list of events, collecting all notifications shown. -/
def sysRun (angleBelow174 : JsNum → JsNum → Bool) (s : Sys) :
    List Ev → Option (Sys × List String)
  | [] => some (s, [])
  | e :: t =>
    match sysStep angleBelow174 s e with
    | none => none
    | some (s1, ns) =>
      match sysRun angleBelow174 s1 t with
      | none => none
      | some (s2, ns2) => some (s2, ns ++ ns2)

/-- The state right after application start-up and `startDetection`: all
module variables at their declared initial values (main.js lines 23-32,
postureDetection.js lines 35-42, emotionDetection.js lines 22-27,
interviewManager.js lines 36-48), with the canvas context created, the
video ready and both detection loops armed. -/
def sysInit : Sys :=
  { recording := false, baselinePosture := none, lastKeypoints := none,
    badPostureTimer := false, isAlertingPosture := false, currentAnswerPostures := [],
    badEmotionTimer := false, isAlertingEmotion := false, lastDetectedEmotion := "neutral",
    currentAnswerEmotions := [], poseDetectionFrameId := true, detectionInterval := true,
    webcamActive := true, canvasContext := true, videoReady := true,
    postureIcon := "", postureLabel := "", emotionEmoji := "", emotionLabel := "",
    questions := [], currentQuestionIndex := 0, totalQuestions := 0, interviewData := [],
    answersBeingProcessed := 0, isFetchingQuestions := true }

/-- C1: for every keypoint frame in which at least one of the landmarks
left_shoulder, right_shoulder, nose is absent, `analyzePosture` returns
exactly the one-element list `["Key points hidden"]`, performing no other
check and emitting no other flag. -/
theorem analyzePosture_missing_landmark (angleBelow174 : JsNum → JsNum → Bool)
    (baselinePosture : Option Baseline) (keypoints : List Keypoint)
    (h : findKeypoint keypoints "left_shoulder" = none ∨
        findKeypoint keypoints "right_shoulder" = none ∨
        findKeypoint keypoints "nose" = none) :
    analyzePosture angleBelow174 baselinePosture keypoints = ["Key points hidden"] := by
  unfold analyzePosture
  rcases hls : findKeypoint keypoints "left_shoulder" with _ | ls <;>
    rcases hrs : findKeypoint keypoints "right_shoulder" with _ | rs <;>
      rcases hnp : findKeypoint keypoints "nose" with _ | np <;>
        simp_all

/-- Witness for C1: a frame holding only a nose landmark (shoulders absent)
yields exactly the hidden-keypoints flag. -/
theorem analyzePosture_missing_landmark_witness :
    analyzePosture (fun _ _ => false) none [⟨none, some "nose", .num 0, .num 0⟩]
      = ["Key points hidden"] :=
  analyzePosture_missing_landmark _ _ _ (Or.inl (by decide))

theorem jadd_num (a b : ℚ) : jadd (.num a) (.num b) = .num (a + b) := rfl

theorem jsub_num (a b : ℚ) : jsub (.num a) (.num b) = .num (a - b) := by
  simp [jsub, jadd, jneg, sub_eq_add_neg]

theorem jabs_num (q : ℚ) : jabs (.num q) = .num |q| := rfl

theorem jdiv_num (a b : ℚ) (h : b ≠ 0) : jdiv (.num a) (.num b) = .num (a / b) := by
  simp [jdiv, h]

theorem jlt_num (a b : ℚ) : jlt (.num a) (.num b) = decide (a < b) := rfl

theorem jsTruthy_num (q : ℚ) : jsTruthy (.num q) = decide (q ≠ 0) := rfl

theorem headTiltCheck_subset (keypoints : List Keypoint) (x : String)
    (h : x ∈ headTiltCheck keypoints) : x = "Looking Down" ∨ x = "Looking Up" := by
  unfold headTiltCheck at h
  split at h
  · dsimp only at h
    split_ifs at h <;> simp_all
  · simp_all

theorem headLeanCheck_subset (shoulderWidth : JsNum) (keypoints : List Keypoint)
    (ls rs : Keypoint) (x : String) (h : x ∈ headLeanCheck shoulderWidth keypoints ls rs) :
    x = "Leaning Head" := by
  unfold headLeanCheck at h
  split at h
  · dsimp only at h
    split_ifs at h <;> simp_all
  · simp_all

theorem shoulderTiltCheck_subset (angleBelow174 : JsNum → JsNum → Bool) (ls rs : Keypoint)
    (x : String) (h : x ∈ shoulderTiltCheck angleBelow174 ls rs) : x = "Tilted Shoulders" := by
  unfold shoulderTiltCheck at h
  split_ifs at h <;> simp_all

/-- C2: for every frame containing both shoulders and the nose, with a live
baseline of nonzero (finite) ratio and a positive shoulder width, the
classifier flags Slouching if and only if the relative deviation
`(currentRatio - baseline.ratio) / baseline.ratio` is strictly below
`-0.25`. -/
theorem analyzePosture_slouching_iff (angleBelow174 : JsNum → JsNum → Bool)
    (keypoints : List Keypoint) (ls rs np : Keypoint) (lx ly rx ry ny r : ℚ)
    (hls : findKeypoint keypoints "left_shoulder" = some ls)
    (hrs : findKeypoint keypoints "right_shoulder" = some rs)
    (hnp : findKeypoint keypoints "nose" = some np)
    (hlx : ls.x = .num lx) (hly : ls.y = .num ly)
    (hrx : rs.x = .num rx) (hry : rs.y = .num ry)
    (hny : np.y = .num ny)
    (hr : r ≠ 0) (hw : 0 < |rx - lx|) :
    ("Slouching" ∈ analyzePosture angleBelow174 (some ⟨.num r⟩) keypoints ↔
      (((ly + ry) / 2 - ny) / |rx - lx| - r) / r < -0.25) := by
  have hw0 : |rx - lx| ≠ 0 := ne_of_gt hw
  have hmem : "Slouching" ∈ analyzePosture angleBelow174 (some ⟨.num r⟩) keypoints ↔
      "Slouching" ∈ slouchCheck (some ⟨.num r⟩) (jabs (jsub rs.x ls.x)) ls rs np := by
    unfold analyzePosture
    rw [hls, hrs, hnp]
    simp only [List.mem_append]
    constructor
    · intro h
      rcases h with (h | h) | h
      · rcases h with h | h
        · exact h
        · rcases headTiltCheck_subset _ _ h with h' | h' <;> simp_all
      · have := headLeanCheck_subset _ _ _ _ _ h; simp_all
      · have := shoulderTiltCheck_subset _ _ _ _ h; simp_all
    · intro h
      exact Or.inl (Or.inl (Or.inl h))
  rw [hmem]
  have h2 : (2 : ℚ) ≠ 0 := by norm_num
  simp only [slouchCheck, hlx, hly, hrx, hry, hny, jsub_num, jabs_num, jadd_num, jlt_num,
    jsTruthy_num, jdiv_num _ _ h2, jdiv_num _ _ hw0, jdiv_num _ _ hr, decide_eq_true_eq,
    ne_eq, hr, not_false_eq_true, decide_True, if_true, hw]
  split_ifs with hc
  · simpa using hc
  · simp only [List.not_mem_nil, false_iff, not_lt]
    exact le_of_not_lt hc

/-- Witness for C2: with baseline ratio 1 and shoulders at y = 100 spanning
x = 0 to 100, a nose at y = 25 gives current ratio exactly 0.75 (deviation
exactly -0.25) and does not fire Slouching, while a nose at y = 30 gives
ratio 0.70 (deviation -0.30) and fires it. -/
theorem analyzePosture_slouching_iff_witness :
    ("Slouching" ∉ analyzePosture (fun _ _ => false) (some ⟨.num 1⟩)
        [⟨none, some "left_shoulder", .num 0, .num 100⟩,
         ⟨none, some "right_shoulder", .num 100, .num 100⟩,
         ⟨none, some "nose", .num 50, .num 25⟩]) ∧
    ("Slouching" ∈ analyzePosture (fun _ _ => false) (some ⟨.num 1⟩)
        [⟨none, some "left_shoulder", .num 0, .num 100⟩,
         ⟨none, some "right_shoulder", .num 100, .num 100⟩,
         ⟨none, some "nose", .num 50, .num 30⟩]) := by
  constructor
  · intro hmem
    have h := (analyzePosture_slouching_iff (fun _ _ => false)
      [⟨none, some "left_shoulder", .num 0, .num 100⟩,
       ⟨none, some "right_shoulder", .num 100, .num 100⟩,
       ⟨none, some "nose", .num 50, .num 25⟩]
      ⟨none, some "left_shoulder", .num 0, .num 100⟩
      ⟨none, some "right_shoulder", .num 100, .num 100⟩
      ⟨none, some "nose", .num 50, .num 25⟩
      0 100 100 100 25 1 (by decide) (by decide) (by decide) rfl rfl rfl rfl rfl
      (by norm_num) (by norm_num [abs_of_nonneg])).mp hmem
    norm_num [abs_of_nonneg] at h
  · exact (analyzePosture_slouching_iff (fun _ _ => false)
      [⟨none, some "left_shoulder", .num 0, .num 100⟩,
       ⟨none, some "right_shoulder", .num 100, .num 100⟩,
       ⟨none, some "nose", .num 50, .num 30⟩]
      ⟨none, some "left_shoulder", .num 0, .num 100⟩
      ⟨none, some "right_shoulder", .num 100, .num 100⟩
      ⟨none, some "nose", .num 50, .num 30⟩
      0 100 100 100 30 1 (by decide) (by decide) (by decide) rfl rfl rfl rfl rfl
      (by norm_num) (by norm_num [abs_of_nonneg])).mpr (by norm_num [abs_of_nonneg])

/-- C6: every failing call to `setBaseline` (no frame observed yet,
shoulders/nose not detected, or shoulder width below 10 units) returns
failure and leaves the stored baseline exactly as it was; every successful
call returns success and fully replaces any prior baseline with the newly
computed ratio. -/
theorem setBaseline_spec (lastKeypoints : Option (List Keypoint))
    (baselinePosture : Option Baseline) :
    (lastKeypoints = none →
      setBaseline lastKeypoints baselinePosture =
        (false, baselinePosture, "Still calibrating. Please wait a moment and try again.")) ∧
    (∀ keypoints, lastKeypoints = some keypoints →
      (findKeypoint keypoints "left_shoulder" = none ∨
        findKeypoint keypoints "right_shoulder" = none ∨
        findKeypoint keypoints "nose" = none) →
      setBaseline lastKeypoints baselinePosture =
        (false, baselinePosture,
          "Could not detect shoulders clearly. Try adjusting your position.")) ∧
    (∀ keypoints ls rs np, lastKeypoints = some keypoints →
      findKeypoint keypoints "left_shoulder" = some ls →
      findKeypoint keypoints "right_shoulder" = some rs →
      findKeypoint keypoints "nose" = some np →
      (jlt (jabs (jsub rs.x ls.x)) (.num 10) = true →
        setBaseline lastKeypoints baselinePosture =
          (false, baselinePosture, "Cannot determine shoulder width. Please sit upright.")) ∧
      (jlt (jabs (jsub rs.x ls.x)) (.num 10) = false →
        setBaseline lastKeypoints baselinePosture =
          (true,
            some ⟨jdiv (jsub (jdiv (jadd ls.y rs.y) (.num 2)) np.y) (jabs (jsub rs.x ls.x))⟩,
            "Baseline posture saved!"))) := by
  refine ⟨fun h => by simp [setBaseline, h], fun keypoints h hmiss => ?_, ?_⟩
  · subst h
    unfold setBaseline
    rcases hls : findKeypoint keypoints "left_shoulder" with _ | ls <;>
      rcases hrs : findKeypoint keypoints "right_shoulder" with _ | rs <;>
        rcases hnp : findKeypoint keypoints "nose" with _ | np <;>
          simp_all
  · intro keypoints ls rs np h hls hrs hnp
    subst h
    constructor
    · intro hw; simp [setBaseline, hls, hrs, hnp, hw]
    · intro hw; simp [setBaseline, hls, hrs, hnp, hw]

/-- Witness for C6: a shoulder distance of 5 units fails and leaves the
prior baseline (ratio 7) unchanged; a subsequent frame with shoulder
distance 50 succeeds and overwrites it with the freshly computed ratio
30 / 50 = 3 / 5. -/
theorem setBaseline_spec_witness :
    (setBaseline
        (some [⟨none, some "left_shoulder", .num 0, .num 0⟩,
               ⟨none, some "right_shoulder", .num 5, .num 0⟩,
               ⟨none, some "nose", .num 2, .num (-10)⟩])
        (some ⟨.num 7⟩) =
      (false, some ⟨.num 7⟩, "Cannot determine shoulder width. Please sit upright.")) ∧
    (setBaseline
        (some [⟨none, some "left_shoulder", .num 0, .num 0⟩,
               ⟨none, some "right_shoulder", .num 50, .num 0⟩,
               ⟨none, some "nose", .num 25, .num (-30)⟩])
        (some ⟨.num 7⟩) =
      (true, some ⟨.num (3 / 5)⟩, "Baseline posture saved!")) := by
  constructor
  · exact ((setBaseline_spec _ (some ⟨.num 7⟩)).2.2
      [⟨none, some "left_shoulder", .num 0, .num 0⟩,
       ⟨none, some "right_shoulder", .num 5, .num 0⟩,
       ⟨none, some "nose", .num 2, .num (-10)⟩]
      ⟨none, some "left_shoulder", .num 0, .num 0⟩
      ⟨none, some "right_shoulder", .num 5, .num 0⟩
      ⟨none, some "nose", .num 2, .num (-10)⟩
      rfl (by decide) (by decide) (by decide)).1
      (by simp only [jsub_num, jabs_num, jlt_num, decide_eq_true_eq]
          norm_num [abs_of_nonneg])
  · have h := ((setBaseline_spec _ (some ⟨.num 7⟩)).2.2
      [⟨none, some "left_shoulder", .num 0, .num 0⟩,
       ⟨none, some "right_shoulder", .num 50, .num 0⟩,
       ⟨none, some "nose", .num 25, .num (-30)⟩]
      ⟨none, some "left_shoulder", .num 0, .num 0⟩
      ⟨none, some "right_shoulder", .num 50, .num 0⟩
      ⟨none, some "nose", .num 25, .num (-30)⟩
      rfl (by decide) (by decide) (by decide)).2
      (by simp only [jsub_num, jabs_num, jlt_num, decide_eq_false_iff_not]
          norm_num [abs_of_nonneg])
    rw [h]
    have h2 : (2 : ℚ) ≠ 0 := by norm_num
    simp only [jadd_num, jdiv_num _ _ h2, jsub_num, jabs_num, Prod.mk.injEq,
      Option.some.injEq, Baseline.mk.injEq]
    rw [jdiv_num _ _ (by norm_num [abs_of_nonneg] : |(50 : ℚ) - 0| ≠ 0)]
    norm_num [abs_of_nonneg]

theorem lookup_mapInc_self (v : String) :
    ∀ (acc : List (String × Nat)), acc.any (fun p => p.1 == v) = true →
      (acc.map (fun p => if p.1 == v then (p.1, p.2 + 1) else p)).lookup v =
        some ((acc.lookup v).getD 0 + 1) := by
  intro acc
  induction acc with
  | nil => intro h; simp at h
  | cons p t ih =>
    obtain ⟨a, b⟩ := p
    intro h
    by_cases ha : a = v
    · subst ha
      simp [List.lookup_cons]
    · have ha' : (a == v) = false := by simp [beq_eq_false_iff_ne, ha]
      have hv' : (v == a) = false := by
        simp only [beq_eq_false_iff_ne, ne_eq]
        exact fun e => ha e.symm
      have ht : t.any (fun p => p.1 == v) = true := by simpa [ha'] using h
      simp only [List.map_cons, ha', Bool.false_eq_true, if_false, List.lookup_cons, hv']
      exact ih ht

theorem lookup_mapInc_ne (v k : String) (h : k ≠ v) (acc : List (String × Nat)) :
    (acc.map (fun p => if p.1 == v then (p.1, p.2 + 1) else p)).lookup k = acc.lookup k := by
  induction acc with
  | nil => rfl
  | cons p t ih =>
    obtain ⟨a, b⟩ := p
    by_cases ha : a = v
    · subst ha
      have hk' : (k == a) = false := by simp [beq_eq_false_iff_ne, h]
      simp only [List.map_cons, beq_self_eq_true, if_true, List.lookup_cons, hk']
      exact ih
    · have ha' : (a == v) = false := by simp [beq_eq_false_iff_ne, ha]
      by_cases hk : k = a
      · subst hk
        simp [List.lookup_cons, ha, ha']
      · have hk' : (k == a) = false := by simp [beq_eq_false_iff_ne, hk]
        simp only [List.map_cons, ha', Bool.false_eq_true, if_false, List.lookup_cons, hk']
        exact ih

theorem lookup_eq_none_of_not_any (v : String) :
    ∀ (acc : List (String × Nat)), acc.any (fun p => p.1 == v) = false →
      acc.lookup v = none := by
  intro acc
  induction acc with
  | nil => intro _; rfl
  | cons p t ih =>
    obtain ⟨a, b⟩ := p
    intro h
    simp only [List.any_cons, Bool.or_eq_false_iff] at h
    have hv' : (v == a) = false := by
      have h1 := h.1
      simp only [beq_eq_false_iff_ne, ne_eq] at h1 ⊢
      exact fun e => h1 e.symm
    simp only [List.lookup_cons, hv']
    exact ih h.2

theorem lookup_bump_self (acc : List (String × Nat)) (v : String) :
    (bump acc v).lookup v = some ((acc.lookup v).getD 0 + 1) := by
  unfold bump
  split_ifs with hmem
  · exact lookup_mapInc_self v acc hmem
  · rw [List.lookup_append, lookup_eq_none_of_not_any v acc
      (by simp only [Bool.not_eq_true] at hmem; exact hmem)]
    simp [List.lookup_cons]

theorem lookup_bump_ne (acc : List (String × Nat)) (v k : String) (h : k ≠ v) :
    (bump acc v).lookup k = acc.lookup k := by
  unfold bump
  split_ifs with hmem
  · exact lookup_mapInc_ne v k h acc
  · rw [List.lookup_append]
    have hk : ([(v, 1)] : List (String × Nat)).lookup k = none := by
      have : (k == v) = false := by simp [beq_eq_false_iff_ne, h]
      simp [List.lookup_cons, this]
    rw [hk]
    simp

theorem lookup_foldl_bump (l : List String) :
    ∀ (acc : List (String × Nat)) (k : String),
      (l.foldl bump acc).lookup k =
        match acc.lookup k with
        | some c => some (c + l.count k)
        | none => if k ∈ l then some (l.count k) else none := by
  induction l with
  | nil =>
    intro acc k
    simp only [List.foldl_nil, List.count_nil, List.not_mem_nil, if_false]
    cases acc.lookup k <;> simp
  | cons v t ih =>
    intro acc k
    rw [List.foldl_cons, ih]
    by_cases hk : k = v
    · subst hk
      rw [lookup_bump_self]
      have hc : List.count k (k :: t) = List.count k t + 1 := by simp [List.count_cons]
      cases h : acc.lookup k <;> simp [hc, h] <;> omega
    · rw [lookup_bump_ne _ _ _ hk]
      have hc : List.count k (v :: t) = List.count k t := by simp [List.count_cons, hk]
      have hm : (k ∈ v :: t) ↔ (k ∈ t) := by simp [List.mem_cons, hk]
      cases h : acc.lookup k <;> simp [hc, hm, h]

theorem lookup_map_value (f : Nat → ℤ) (acc : List (String × Nat)) (k : String) :
    (acc.map (fun p => (p.1, f p.2))).lookup k = (acc.lookup k).map f := by
  induction acc with
  | nil => rfl
  | cons p t ih =>
    obtain ⟨a, b⟩ := p
    by_cases h : k = a
    · subst h
      simp [List.lookup_cons]
    · have h' : (k == a) = false := by simp [beq_eq_false_iff_ne, h]
      simp [List.lookup_cons, h', ih]

/-- C7: `calculateDistribution` maps each distinct input label to
`round(100 * count / total)`, yields the empty mapping on the empty
sequence, and on `["A", "A", "B"]` yields `{A: 67, B: 33}` (per-label
rounding is independent; values need not sum to 100). -/
theorem calculateDistribution_spec :
    calculateDistribution [] = [] ∧
    (∀ (l : List String) (k : String),
      (calculateDistribution l).lookup k =
        if k ∈ l then some (jsRound ((l.count k : ℚ) / (l.length : ℚ) * 100)) else none) ∧
    calculateDistribution ["A", "A", "B"] = [("A", 67), ("B", 33)] := by
  refine ⟨rfl, fun l k => ?_, ?_⟩
  · rcases eq_or_ne l [] with hl | hl
    · subst hl
      simp [calculateDistribution]
    · have hlen : ¬ l.length = 0 := by simpa [List.length_eq_zero] using hl
      have hmv := lookup_map_value (fun c => jsRound ((c : ℚ) / (l.length : ℚ) * 100))
        (l.foldl bump []) k
      beta_reduce at hmv
      unfold calculateDistribution
      rw [if_neg hlen, hmv, lookup_foldl_bump]
      simp only [List.lookup_nil]
      split_ifs with hmem
      · simp
      · simp
  · unfold calculateDistribution
    simp only [List.length_cons, List.length_nil]
    norm_num
    rw [show bump (bump (bump [] "A") "A") "B" = [("A", 2), ("B", 1)] by decide]
    simp only [List.map_cons, List.map_nil, jsRound, List.cons.injEq, Prod.mk.injEq,
      and_true, true_and]
    norm_num

/-- C8: for every non-empty expression-score mapping, `dominantEmotion`
returns the key with the maximum score, ties broken by the
first-encountered key in the mapping's iteration order: it equals the key
of the first entry whose score is greater than or equal to every score in
the mapping. -/
theorem dominantEmotion_spec (l : List (String × ℚ)) (hne : l ≠ []) :
    dominantEmotion l =
      (l.find? (fun p => l.all (fun q => decide (q.2 ≤ p.2)))).map Prod.fst := by
  have trans : ∀ a b c : String × ℚ,
      (fun a b : String × ℚ => decide (b.2 ≤ a.2)) a b = true →
      (fun a b : String × ℚ => decide (b.2 ≤ a.2)) b c = true →
      (fun a b : String × ℚ => decide (b.2 ≤ a.2)) a c = true := by
    intro a b c hab hbc
    simp only [decide_eq_true_eq] at hab hbc ⊢
    exact le_trans hbc hab
  have total : ∀ a b : String × ℚ,
      ((fun a b : String × ℚ => decide (b.2 ≤ a.2)) a b ||
        (fun a b : String × ℚ => decide (b.2 ≤ a.2)) b a) = true := by
    intro a b
    simp only [Bool.or_eq_true, decide_eq_true_eq]
    exact le_total b.2 a.2
  cases hms : l.mergeSort (fun a b : String × ℚ => decide (b.2 ≤ a.2)) with
  | nil =>
    exfalso
    have := @List.length_mergeSort _ (fun a b : String × ℚ => decide (b.2 ≤ a.2)) l
    rw [hms] at this
    exact hne (List.length_eq_zero.mp this.symm)
  | cons h0 rest =>
    have hmem : h0 ∈ l := by
      rw [← @List.mem_mergeSort _ (fun a b : String × ℚ => decide (b.2 ≤ a.2)) h0 l, hms]
      exact List.mem_cons_self _ _
    have hmax : ∀ q ∈ l, q.2 ≤ h0.2 := by
      intro q hq
      rw [← @List.mem_mergeSort _ (fun a b : String × ℚ => decide (b.2 ≤ a.2)) q l, hms]
        at hq
      rcases List.mem_cons.mp hq with hq | hq
      · exact le_of_eq (by rw [hq])
      · have hs := List.sorted_mergeSort trans total l
        rw [hms] at hs
        have := (List.pairwise_cons.mp hs).1 q hq
        simpa using this
    have hlhs : dominantEmotion l = some h0.1 := by
      unfold dominantEmotion
      rw [hms]
      rfl
    have hpred0 : (l.all (fun q => decide (q.2 ≤ h0.2))) = true := by
      rw [List.all_eq_true]
      intro q hq
      simpa using hmax q hq
    have hfind : ∃ p0, l.find? (fun p => l.all (fun q => decide (q.2 ≤ p.2))) = some p0 := by
      have hsome : (l.find? (fun p => l.all (fun q => decide (q.2 ≤ p.2)))).isSome :=
        List.find?_isSome.mpr ⟨h0, hmem, hpred0⟩
      cases hf : l.find? (fun p => l.all (fun q => decide (q.2 ≤ p.2))) with
      | none => rw [hf] at hsome; simp at hsome
      | some p0 => exact ⟨p0, rfl⟩
    obtain ⟨p0, hf⟩ := hfind
    obtain ⟨hp0pred, as, bs, hsplit, has⟩ := List.find?_eq_some.mp hf
    have hp0mem : p0 ∈ l := by rw [hsplit]; exact List.mem_append_right _ (List.mem_cons_self _ _)
    have hp0max : ∀ q ∈ l, q.2 ≤ p0.2 := by
      intro q hq
      have := (List.all_eq_true.mp hp0pred) q hq
      simpa using this
    have hscore : h0.2 = p0.2 := le_antisymm (hp0max h0 hmem) (hmax p0 hp0mem)
    have hmain : h0 = p0 := by
      by_contra hne2
      have hnotas : h0 ∉ as := by
        intro hin
        have hfail := has h0 hin
        simp only [Bool.not_eq_true', List.all_eq_false] at hfail
        obtain ⟨q, hq1, hq2⟩ := hfail
        exact absurd (by simpa using hmax q hq1) (by simpa using hq2)
      have hcount : l.count h0 = bs.count h0 := by
        rw [hsplit, List.count_append, List.count_cons]
        have h1 : as.count h0 = 0 := List.count_eq_zero.mpr hnotas
        have h2 : (h0 == p0) = false := by
          rw [beq_eq_false_iff_ne]
          exact fun e => hne2 e
        simp [h1, h2, hne2, Ne.symm hne2]
      have hrep : List.Sublist (List.replicate (bs.count h0) h0) bs :=
        List.le_count_iff_replicate_sublist.mp (le_refl _)
      have hcsub : List.Sublist (p0 :: List.replicate (bs.count h0) h0) l := by
        rw [hsplit]
        exact List.Sublist.trans (List.Sublist.cons₂ p0 hrep)
          (List.sublist_append_right as (p0 :: bs))
      have hcpw : (p0 :: List.replicate (bs.count h0) h0).Pairwise
          (fun a b : String × ℚ => decide (b.2 ≤ a.2) = true) := by
        rw [List.pairwise_cons]
        constructor
        · intro x hx
          have hx' : x = h0 := List.eq_of_mem_replicate hx
          subst hx'
          simp [hscore]
        · rw [List.pairwise_replicate]
          right
          simp
      have hsub2 := List.sublist_mergeSort trans total hcpw hcsub
      rw [hms] at hsub2
      have htail : List.Sublist (p0 :: List.replicate (bs.count h0) h0) rest := by
        cases hsub2 with
        | cons _ h => exact h
        | cons₂ h => exact absurd rfl hne2
      have hrep2 : List.Sublist (List.replicate (bs.count h0) h0) rest :=
        List.Sublist.trans (List.sublist_cons_self p0 _) htail
      have hge : bs.count h0 ≤ rest.count h0 := List.le_count_iff_replicate_sublist.mpr hrep2
      have hperm := List.mergeSort_perm l (fun a b : String × ℚ => decide (b.2 ≤ a.2))
      have hcc : (l.mergeSort (fun a b : String × ℚ => decide (b.2 ≤ a.2))).count h0
          = l.count h0 := hperm.countP_eq (· == h0)
      rw [hms, List.count_cons_self, hcount] at hcc
      omega
    rw [hlhs, hf, hmain]
    rfl

/-- Witness for C8: `dominantEmotion` on happy 0.2 / sad 0.6 / neutral 0.2
returns sad. -/
theorem dominantEmotion_spec_witness :
    dominantEmotion [("happy", 0.2), ("sad", 0.6), ("neutral", 0.2)] = some "sad" := by
  rw [dominantEmotion_spec _ (by simp)]
  norm_num [List.find?, List.all]

theorem alertNotifyCount_le {α : Type} (bad : α → Bool) :
    ∀ tr : List (AlertEv α),
      (tr.all fun e => match e with | .obs r x => r && bad x | .fire => true) = true →
      ∀ s : AlertInst α,
        alertNotifyCount bad s tr ≤ if s.alerted && !s.timer then 0 else 1 := by
  intro tr
  induction tr with
  | nil =>
    intro _ s
    simp [alertNotifyCount]
  | cons e t ih =>
    intro hadv s
    rw [List.all_cons, Bool.and_eq_true] at hadv
    obtain ⟨he, ht⟩ := hadv
    obtain ⟨st, sa, so⟩ := s
    cases e with
    | obs r x =>
      have hrx : r = true ∧ bad x = true := by simpa using he
      obtain ⟨hr, hx⟩ := hrx
      subst hr
      have hstep : alertNotifyCount bad ⟨st, sa, so⟩ (AlertEv.obs true x :: t)
          = alertNotifyCount bad (alertObserve bad true x ⟨st, sa, so⟩) t := by
        simp [alertNotifyCount, alertStep]
      rw [hstep]
      refine le_trans (ih ht _) ?_
      unfold alertObserve
      cases st <;> cases sa <;> simp [hx]
    | fire =>
      have hstep : alertNotifyCount bad ⟨st, sa, so⟩ (AlertEv.fire :: t)
          = (if (alertFire bad ⟨st, sa, so⟩).2 then 1 else 0)
            + alertNotifyCount bad (alertFire bad ⟨st, sa, so⟩).1 t := by
        simp [alertNotifyCount, alertStep]
      rw [hstep]
      cases st <;> cases sa <;> cases hb : bad so <;>
        simp only [alertFire, hb, Bool.true_and, Bool.false_and, Bool.and_self,
          Bool.not_true, Bool.not_false, if_true, if_false, Bool.false_eq_true,
          Bool.true_eq_false, ite_true, ite_false] <;>
        first
        | simpa using le_trans (ih ht _) (by simp)
        | (have hbd := ih ht ⟨false, true, so⟩
           simp only [Bool.and_self, Bool.not_false, Bool.true_and, Bool.not_true,
             Bool.false_and, if_true, if_false, ite_true, ite_false] at hbd
           omega)

/-- C3: the sustained-condition alerting machine (the structure shared by
the posture and emotion instances) fires at most one notification during
any contiguous run of adverse observations while recording, from any
starting state; and a single non-adverse observation while recording
cancels any pending timer and clears the alerted flag, returning the
machine to Idle. -/
theorem alert_episode_spec {α : Type} (bad : α → Bool) (s : AlertInst α)
    (tr : List (AlertEv α))
    (hadv : (tr.all fun e => match e with | .obs r x => r && bad x | .fire => true) = true) :
    alertNotifyCount bad s tr ≤ 1 ∧
    ∀ x : α, bad x = false →
      (alertObserve bad true x s).timer = false ∧
        (alertObserve bad true x s).alerted = false := by
  constructor
  · refine le_trans (alertNotifyCount_le bad tr hadv s) ?_
    split_ifs <;> omega
  · intro x hx
    unfold alertObserve
    simp [hx]

/-- Witness for C3, on the posture instance of the machine (adverse means
`analyzePosture` reports at least one flag; an empty keypoint frame is
adverse since the landmarks are hidden): an episode of two adverse frames
around two timer elapses fires exactly one coaching notification (at most
one, by the theorem; the run evaluates to exactly one), and a good frame
resets the machine to Idle. -/
theorem alert_episode_spec_witness :
    alertNotifyCount (fun kps => !(analyzePosture (fun _ _ => false) none kps).isEmpty)
        ⟨false, false, []⟩
        [AlertEv.obs true [], AlertEv.fire, AlertEv.obs true [], AlertEv.fire] ≤ 1 ∧
    (alertObserve (fun kps => !(analyzePosture (fun _ _ => false) none kps).isEmpty) true
        [⟨none, some "left_shoulder", .num 0, .num 0⟩,
         ⟨none, some "right_shoulder", .num 50, .num 0⟩,
         ⟨none, some "nose", .num 25, .num (-30)⟩]
        ⟨true, true, []⟩).timer = false := by
  constructor
  · exact (alert_episode_spec _ ⟨false, false, []⟩ _ (by decide)).1
  · exact ((alert_episode_spec
      (fun kps => !(analyzePosture (fun _ _ => false) none kps).isEmpty)
      ⟨true, true, []⟩ [] (by decide)).2
      [⟨none, some "left_shoulder", .num 0, .num 0⟩,
       ⟨none, some "right_shoulder", .num 50, .num 0⟩,
       ⟨none, some "nose", .num 25, .num (-30)⟩] (by decide)).1

/-- C9 (amended): `handlePoseResults` treats a frame as no-signal — only
the Calibrating UI is written; the keypoint cache, the accumulators and the
alerting state are untouched and nothing is classified — exactly when no
result object is present, no subject was detected, the first subject has no
keypoints array, or the FIRST keypoint's x coordinate is NaN.  (NaN in any
later keypoint is not screened; see the counterexample.) -/
theorem handlePoseResults_no_signal (angleBelow174 : JsNum → JsNum → Bool) (s : Sys) :
    (handlePoseResults angleBelow174 none s =
      some ({ s with postureIcon := "🤔", postureLabel := "Calibrating..." }, [])) ∧
    (handlePoseResults angleBelow174 (some []) s =
      some ({ s with postureIcon := "🤔", postureLabel := "Calibrating..." }, [])) ∧
    (∀ (rest : List Subject) (subj : Subject), subj.keypoints = none →
      handlePoseResults angleBelow174 (some (subj :: rest)) s =
        some ({ s with postureIcon := "🤔", postureLabel := "Calibrating..." }, [])) ∧
    (∀ (rest : List Subject) (k0 : Keypoint) (kt : List Keypoint), jsIsNaN k0.x = true →
      handlePoseResults angleBelow174 (some (Subject.mk (some (k0 :: kt)) :: rest)) s =
        some ({ s with postureIcon := "🤔", postureLabel := "Calibrating..." }, [])) := by
  refine ⟨rfl, rfl, ?_, ?_⟩
  · intro rest subj hk
    simp [handlePoseResults, hk]
  · intro rest k0 kt hnan
    simp [handlePoseResults, hnan]

/-- Witness for the amended C9: a frame with no keypoints array and a frame
whose first keypoint has a NaN x coordinate are both treated as no-signal
(only the Calibrating UI changes). -/
theorem handlePoseResults_no_signal_witness :
    (handlePoseResults (fun _ _ => false) (some [Subject.mk none]) sysInit =
      some ({ sysInit with postureIcon := "🤔", postureLabel := "Calibrating..." }, [])) ∧
    (handlePoseResults (fun _ _ => false)
        (some [Subject.mk (some [⟨none, some "nose", .nan, .num 0⟩])]) sysInit =
      some ({ sysInit with postureIcon := "🤔", postureLabel := "Calibrating..." }, [])) := by
  constructor
  · exact (handlePoseResults_no_signal (fun _ _ => false) sysInit).2.2.1 []
      (Subject.mk none) rfl
  · exact (handlePoseResults_no_signal (fun _ _ => false) sysInit).2.2.2 []
      ⟨none, some "nose", .nan, .num 0⟩ [] rfl

/-- C9 counterexample: a frame whose SECOND keypoint has a NaN x coordinate
passes the guard (only `keypoints[0].x` is screened): the keypoint cache is
updated and the frame is classified (here as hidden landmarks), so the
frame is not treated as no-signal as the claim states. -/
theorem handlePoseResults_nan_second_keypoint :
    (handlePoseResults (fun _ _ => false)
        (some [Subject.mk (some [⟨none, some "nose", .num 0, .num 0⟩,
                                 ⟨none, some "left_eye", .nan, .num 0⟩])])
        sysInit).map (fun p => (p.1.lastKeypoints, p.1.postureLabel, p.2)) =
      some (some [⟨none, some "nose", .num 0, .num 0⟩,
                  ⟨none, some "left_eye", .nan, .num 0⟩], "Key points hidden", []) := by
  decide

/-- C5 (amended): `stopAllDetections` cancels the pose loop's pending
animation frame and the emotion loop's interval and releases the camera
stream, after which pose and emotion frame events are no-ops (no
classification runs); but it does NOT cancel the pending
sustained-condition alert timers — they are left exactly as they were, and
a pending one may still fire a coaching alert after the stop returns (see
the counterexample). -/
theorem stopAllDetections_spec (angleBelow174 : JsNum → JsNum → Bool) (s : Sys) :
    ((stopAllDetections s).poseDetectionFrameId = false ∧
      (stopAllDetections s).detectionInterval = false ∧
      (stopAllDetections s).webcamActive = false) ∧
    ((stopAllDetections s).badPostureTimer = s.badPostureTimer ∧
      (stopAllDetections s).isAlertingPosture = s.isAlertingPosture ∧
      (stopAllDetections s).badEmotionTimer = s.badEmotionTimer ∧
      (stopAllDetections s).isAlertingEmotion = s.isAlertingEmotion ∧
      (stopAllDetections s).lastKeypoints = s.lastKeypoints ∧
      (stopAllDetections s).baselinePosture = s.baselinePosture ∧
      (stopAllDetections s).recording = s.recording) ∧
    (∀ results, sysStep angleBelow174 (stopAllDetections s) (.poseFrame results) =
      some (stopAllDetections s, [])) ∧
    (∀ ds, sysStep angleBelow174 (stopAllDetections s) (.emotionFrame ds) =
      some (stopAllDetections s, [])) := by
  have hsd : stopAllDetections s =
      { s with
        poseDetectionFrameId := false,
        detectionInterval := false,
        webcamActive := false } := by
    unfold stopAllDetections
    cases h1 : s.poseDetectionFrameId <;> cases h2 : s.detectionInterval <;>
      simp [h1, h2]
  rw [hsd]
  refine ⟨⟨rfl, rfl, rfl⟩, ⟨rfl, rfl, rfl, rfl, rfl, rfl, rfl⟩, ?_, ?_⟩
  · intro results
    unfold sysStep
    simp
  · intro ds
    unfold sysStep
    simp

/-- C5 counterexample: from the initial state, start recording, observe one
bad-posture frame (arming the 5-second alert timer), then call
`stopAllDetections`; the pending alert timer was not cancelled and its
elapse still fires the coaching notification after the stop returned —
contradicting the claim that stop cancels every outstanding timer handle
and that no coaching alert ever fires afterwards. -/
theorem alert_fires_after_stopAllDetections :
    (sysRun (fun _ _ => false) sysInit
        [Ev.startRec,
         Ev.poseFrame (some [Subject.mk (some [⟨none, some "nose", .num 0, .num 0⟩])]),
         Ev.stopDetections,
         Ev.postureTimerFire]).map
        (fun p => (p.1.poseDetectionFrameId, p.1.webcamActive, p.1.isAlertingPosture, p.2)) =
      some (false, false, true, ["💡 Coaching Tip: Try to maintain an upright posture."]) := by
  decide

/-- C4 (amended): while the recording flag is false, pose and emotion frame
steps never write the accumulators, never change the alert-timer state and
fire no notification, while a valid frame is still classified and shown in
the UI; however, an alert timer armed while recording survives
`stopRecording`, and its elapse can mutate the alerting state and fire a
notification while recording is false (see the counterexample). -/
theorem notRecording_frame_no_mutation (angleBelow174 : JsNum → JsNum → Bool) (s : Sys)
    (hrec : s.recording = false) :
    (∀ results s2 notes,
      sysStep angleBelow174 s (.poseFrame results) = some (s2, notes) →
      s2.currentAnswerPostures = s.currentAnswerPostures ∧
      s2.currentAnswerEmotions = s.currentAnswerEmotions ∧
      s2.badPostureTimer = s.badPostureTimer ∧
      s2.isAlertingPosture = s.isAlertingPosture ∧
      s2.badEmotionTimer = s.badEmotionTimer ∧
      s2.isAlertingEmotion = s.isAlertingEmotion ∧
      notes = []) ∧
    (∀ ds s2 notes,
      sysStep angleBelow174 s (.emotionFrame ds) = some (s2, notes) →
      s2.currentAnswerPostures = s.currentAnswerPostures ∧
      s2.currentAnswerEmotions = s.currentAnswerEmotions ∧
      s2.badPostureTimer = s.badPostureTimer ∧
      s2.isAlertingPosture = s.isAlertingPosture ∧
      s2.badEmotionTimer = s.badEmotionTimer ∧
      s2.isAlertingEmotion = s.isAlertingEmotion ∧
      notes = []) ∧
    (∀ (rest : List Subject) (k0 : Keypoint) (kt : List Keypoint),
      s.poseDetectionFrameId = true → s.canvasContext = true → jsIsNaN k0.x = false →
      ∃ s2, sysStep angleBelow174 s
          (.poseFrame (some (Subject.mk (some (k0 :: kt)) :: rest))) = some (s2, []) ∧
        s2.postureLabel =
          (if (analyzePosture angleBelow174 s.baselinePosture (k0 :: kt)).isEmpty
            then "Good Posture"
            else (analyzePosture angleBelow174 s.baselinePosture (k0 :: kt)).headD "")) := by
  refine ⟨?_, ?_, ?_⟩
  · intro results s2 notes hstep
    rcases results with _ | rs
    · simp only [sysStep] at hstep
      split_ifs at hstep <;>
        first
            | (simp only [Option.some.injEq, Prod.mk.injEq] at hstep
               obtain ⟨h1, h2⟩ := hstep
               subst h1
               subst h2
               simp_all)
            | simp_all
    · rcases rs with _ | ⟨subj, rest⟩
      · simp only [sysStep] at hstep
        split_ifs at hstep <;>
          first
            | (simp only [Option.some.injEq, Prod.mk.injEq] at hstep
               obtain ⟨h1, h2⟩ := hstep
               subst h1
               subst h2
               simp_all)
            | simp_all
      · rcases subj with ⟨_ | kps⟩
        · simp only [sysStep, handlePoseResults, List.head?_cons] at hstep
          split_ifs at hstep <;>
            first
            | (simp only [Option.some.injEq, Prod.mk.injEq] at hstep
               obtain ⟨h1, h2⟩ := hstep
               subst h1
               subst h2
               simp_all)
            | simp_all
        · rcases kps with _ | ⟨k0, kt⟩
          · simp only [sysStep, handlePoseResults, List.head?_cons, List.head?_nil] at hstep
            split_ifs at hstep <;>
              first
            | (simp only [Option.some.injEq, Prod.mk.injEq] at hstep
               obtain ⟨h1, h2⟩ := hstep
               subst h1
               subst h2
               simp_all)
            | simp_all
          · simp only [sysStep, handlePoseResults, List.head?_cons] at hstep
            split_ifs at hstep <;>
              first
            | (simp only [Option.some.injEq, Prod.mk.injEq] at hstep
               obtain ⟨h1, h2⟩ := hstep
               subst h1
               subst h2
               simp_all)
            | simp_all
  · intro ds s2 notes hstep
    rcases hdom : dominantEmotion (ds.headD []) with _ | dom <;>
      rw [sysStep] at hstep <;>
      simp only [runEmotionDetection, hdom] at hstep <;>
      split_ifs at hstep <;>
        first
            | (simp only [Option.some.injEq, Prod.mk.injEq] at hstep
               obtain ⟨h1, h2⟩ := hstep
               subst h1
               subst h2
               simp_all)
            | simp_all
  · intro rest k0 kt hpf hcv hnan
    have hstep : sysStep angleBelow174 s
        (.poseFrame (some (Subject.mk (some (k0 :: kt)) :: rest)))
        = handlePoseResults angleBelow174 (some (Subject.mk (some (k0 :: kt)) :: rest)) s := by
      simp [sysStep, hpf]
    rw [hstep]
    unfold handlePoseResults
    simp only [List.head?_cons, hnan, Bool.false_eq_true, if_false, hcv, hrec,
      Bool.not_true]
    by_cases hbad : (analyzePosture angleBelow174 s.baselinePosture (k0 :: kt)).isEmpty
    · simp only [hbad, Bool.not_true, Bool.false_eq_true, if_false, if_true, hrec]
      refine ⟨_, rfl, ?_⟩
      simp [hbad]
    · have hbad2 : (analyzePosture angleBelow174 s.baselinePosture (k0 :: kt)).isEmpty
          = false := by simpa using hbad
      simp only [hbad2, Bool.not_false, if_true, if_false, hrec, Bool.false_eq_true]
      refine ⟨_, rfl, ?_⟩
      simp [hbad2]

/-- C4 counterexample: reachable from the initial state — start recording,
observe one bad-posture frame (arming the timer), stop recording; the
timer is still pending with recording now false, and its elapse mutates
the alert-timer state and fires a coaching notification while the
recording flag is false, contradicting the claimed invariant. -/
theorem alert_fires_while_not_recording :
    ((sysRun (fun _ _ => false) sysInit
        [Ev.startRec,
         Ev.poseFrame (some [Subject.mk (some [⟨none, some "nose", .num 0, .num 0⟩])]),
         Ev.stopRec]).map (fun p => (p.1.recording, p.1.badPostureTimer)) =
      some (false, true)) ∧
    ((sysRun (fun _ _ => false) sysInit
        [Ev.startRec,
         Ev.poseFrame (some [Subject.mk (some [⟨none, some "nose", .num 0, .num 0⟩])]),
         Ev.stopRec,
         Ev.postureTimerFire]).map
        (fun p => (p.1.recording, p.1.badPostureTimer, p.1.isAlertingPosture, p.2)) =
      some (false, false, true, ["💡 Coaching Tip: Try to maintain an upright posture."])) := by
  constructor
  · decide
  · decide

/-- Witness for the amended C4: with recording off in the initial state, a
bad-posture frame updates only the cache and the UI — the accumulators and
the alert-timer state of the resulting state equal those of the initial
state and no notification is shown. -/
theorem notRecording_frame_no_mutation_witness :
    ({ sysInit with
        lastKeypoints := some [⟨none, some "nose", .num 0, .num 0⟩],
        postureIcon := "⚠️",
        postureLabel := "Key points hidden" } : Sys).currentAnswerPostures =
      sysInit.currentAnswerPostures ∧
    ({ sysInit with
        lastKeypoints := some [⟨none, some "nose", .num 0, .num 0⟩],
        postureIcon := "⚠️",
        postureLabel := "Key points hidden" } : Sys).currentAnswerEmotions =
      sysInit.currentAnswerEmotions ∧
    ({ sysInit with
        lastKeypoints := some [⟨none, some "nose", .num 0, .num 0⟩],
        postureIcon := "⚠️",
        postureLabel := "Key points hidden" } : Sys).badPostureTimer =
      sysInit.badPostureTimer ∧
    ({ sysInit with
        lastKeypoints := some [⟨none, some "nose", .num 0, .num 0⟩],
        postureIcon := "⚠️",
        postureLabel := "Key points hidden" } : Sys).isAlertingPosture =
      sysInit.isAlertingPosture ∧
    ({ sysInit with
        lastKeypoints := some [⟨none, some "nose", .num 0, .num 0⟩],
        postureIcon := "⚠️",
        postureLabel := "Key points hidden" } : Sys).badEmotionTimer =
      sysInit.badEmotionTimer ∧
    ({ sysInit with
        lastKeypoints := some [⟨none, some "nose", .num 0, .num 0⟩],
        postureIcon := "⚠️",
        postureLabel := "Key points hidden" } : Sys).isAlertingEmotion =
      sysInit.isAlertingEmotion ∧
    ([] : List String) = [] :=
  (notRecording_frame_no_mutation (fun _ _ => false) sysInit rfl).1
    (some [Subject.mk (some [⟨none, some "nose", .num 0, .num 0⟩])])
    { sysInit with
      lastKeypoints := some [⟨none, some "nose", .num 0, .num 0⟩],
      postureIcon := "⚠️",
      postureLabel := "Key points hidden" }
    [] (by decide)

/-- C10: `resetInterview` clears the baseline, both accumulators, the
question/answer state and the processing counter, but leaves the cached
last-valid keypoints unchanged; consequently, after a reset that follows
at least one valid frame, an immediate `setBaseline` call does not fail
with the still-calibrating message and can succeed from the frame captured
before the reset. -/
theorem resetInterview_spec (s : Sys) :
    (resetInterview s).baselinePosture = none ∧
    (resetInterview s).currentAnswerPostures = [] ∧
    (resetInterview s).currentAnswerEmotions = [] ∧
    (resetInterview s).questions = [] ∧
    (resetInterview s).currentQuestionIndex = 0 ∧
    (resetInterview s).totalQuestions = 0 ∧
    (resetInterview s).interviewData = [] ∧
    (resetInterview s).answersBeingProcessed = 0 ∧
    (resetInterview s).isFetchingQuestions = false ∧
    (resetInterview s).lastKeypoints = s.lastKeypoints ∧
    (∀ kps, s.lastKeypoints = some kps →
      (setBaseline (resetInterview s).lastKeypoints
          (resetInterview s).baselinePosture).2.2 ≠
        "Still calibrating. Please wait a moment and try again.") := by
  refine ⟨rfl, rfl, rfl, rfl, rfl, rfl, rfl, rfl, rfl, rfl, ?_⟩
  intro kps hk
  have hlk : (resetInterview s).lastKeypoints = some kps := by
    simpa [resetInterview] using hk
  rw [hlk]
  unfold setBaseline
  rcases hls : findKeypoint kps "left_shoulder" with _ | ls <;>
    rcases hrs : findKeypoint kps "right_shoulder" with _ | rs <;>
      rcases hnp : findKeypoint kps "nose" with _ | np <;>
        simp only [hls, hrs, hnp] <;> first | (split_ifs <;> simp) | simp

/-- Witness for C10: a pre-reset frame with shoulder width 50 survives the
reset (the cache is untouched while the baseline and the counters are
cleared), and `setBaseline` right after the reset succeeds from it. -/
theorem resetInterview_spec_witness :
    ((resetInterview { sysInit with
        lastKeypoints := some [⟨none, some "left_shoulder", .num 0, .num 0⟩,
                               ⟨none, some "right_shoulder", .num 50, .num 0⟩,
                               ⟨none, some "nose", .num 25, .num (-30)⟩],
        baselinePosture := some ⟨.num 7⟩,
        answersBeingProcessed := 2 }).baselinePosture = none ∧
      (resetInterview { sysInit with
        lastKeypoints := some [⟨none, some "left_shoulder", .num 0, .num 0⟩,
                               ⟨none, some "right_shoulder", .num 50, .num 0⟩,
                               ⟨none, some "nose", .num 25, .num (-30)⟩],
        baselinePosture := some ⟨.num 7⟩,
        answersBeingProcessed := 2 }).lastKeypoints =
        some [⟨none, some "left_shoulder", .num 0, .num 0⟩,
              ⟨none, some "right_shoulder", .num 50, .num 0⟩,
              ⟨none, some "nose", .num 25, .num (-30)⟩]) ∧
    (setBaseline (resetInterview { sysInit with
        lastKeypoints := some [⟨none, some "left_shoulder", .num 0, .num 0⟩,
                               ⟨none, some "right_shoulder", .num 50, .num 0⟩,
                               ⟨none, some "nose", .num 25, .num (-30)⟩],
        baselinePosture := some ⟨.num 7⟩,
        answersBeingProcessed := 2 }).lastKeypoints
      (resetInterview { sysInit with
        lastKeypoints := some [⟨none, some "left_shoulder", .num 0, .num 0⟩,
                               ⟨none, some "right_shoulder", .num 50, .num 0⟩,
                               ⟨none, some "nose", .num 25, .num (-30)⟩],
        baselinePosture := some ⟨.num 7⟩,
        answersBeingProcessed := 2 }).baselinePosture).2.2 ≠
        "Still calibrating. Please wait a moment and try again." ∧
    (setBaseline
      (some [⟨none, some "left_shoulder", .num 0, .num 0⟩,
             ⟨none, some "right_shoulder", .num 50, .num 0⟩,
             ⟨none, some "nose", .num 25, .num (-30)⟩]) none).1 = true := by
  refine ⟨⟨(resetInterview_spec _).1, (resetInterview_spec _).2.2.2.2.2.2.2.2.2.1⟩,
    (resetInterview_spec _).2.2.2.2.2.2.2.2.2.2
      [⟨none, some "left_shoulder", .num 0, .num 0⟩,
       ⟨none, some "right_shoulder", .num 50, .num 0⟩,
       ⟨none, some "nose", .num 25, .num (-30)⟩] rfl, ?_⟩
  have h1 : findKeypoint
      [⟨none, some "left_shoulder", .num 0, .num 0⟩,
       ⟨none, some "right_shoulder", .num 50, .num 0⟩,
       ⟨none, some "nose", .num 25, .num (-30)⟩] "left_shoulder" =
      some ⟨none, some "left_shoulder", .num 0, .num 0⟩ := by decide
  have h2 : findKeypoint
      [⟨none, some "left_shoulder", .num 0, .num 0⟩,
       ⟨none, some "right_shoulder", .num 50, .num 0⟩,
       ⟨none, some "nose", .num 25, .num (-30)⟩] "right_shoulder" =
      some ⟨none, some "right_shoulder", .num 50, .num 0⟩ := by decide
  have h3 : findKeypoint
      [⟨none, some "left_shoulder", .num 0, .num 0⟩,
       ⟨none, some "right_shoulder", .num 50, .num 0⟩,
       ⟨none, some "nose", .num 25, .num (-30)⟩] "nose" =
      some ⟨none, some "nose", .num 25, .num (-30)⟩ := by decide
  have hw : decide (|(50 : ℚ) - 0| < 10) = false := by
    rw [decide_eq_false_iff_not]
    norm_num [abs_of_nonneg]
  simp only [setBaseline, h1, h2, h3, jsub_num, jabs_num, jlt_num, hw,
    Bool.false_eq_true, if_false]

end InterviewCoach
